import Mathlib

/-!
# Course-representative account functions: authorization and directory calls

A shallow embedding of `functions/index.js`: the guard `validateAuth` and the
four callable handlers `makeAdmin`, `authenticateCourseRepresentative`,
`updateCourseRepresentativeAuth` and `deleteCourseRepresentativeAuth`.

The two collaborators of the handlers are made explicit. The identity
directory (`getAuth()`) is a record of four functions, each of which either
returns or raises; the logger is a list of records written by the handler.
One run of a handler yields an `Outcome`: what the handler returned or threw,
the directory calls it made (in order) and the log records it wrote (in order).
-/

namespace CourseRep

/-! ## JavaScript values -/

/-- JavaScript values as they reach the handlers: `undefined`, or a decoded
JSON value. Numbers are represented by integers; the program only ever tests a
number for truthiness (zero or not) and otherwise passes it on unchanged. An
object is the list of its own properties, and a read takes the first entry
with the requested key. -/
inductive JSVal where
  | undefined
  | null
  | bool (b : Bool)
  | num (n : Int)
  | str (s : String)
  | arr (items : List JSVal)
  | obj (props : List (String × JSVal))

namespace JSVal

/-- JavaScript truthiness (`ToBoolean`), the test behind `!v` and `if (v)`:
`undefined`, `null`, `false`, `0` and `""` are falsy, everything else is
truthy (every array and every object included). -/
def truthy : JSVal → Bool
  | undefined => false
  | null => false
  | bool b => b
  | num n => decide (n ≠ 0)
  | str s => decide (s ≠ "")
  | arr _ => true
  | obj _ => true

/-- Whether destructuring the value throws: `const {k} = v` raises a
`TypeError` exactly when `v` is `undefined` or `null`. -/
def isNullish : JSVal → Bool
  | undefined => true
  | null => true
  | _ => false

/-- The property read `v.key` on a value that is not nullish, for the keys this
program reads (`uid`, `email`, `displayName`), none of which lives on a
built-in prototype: an object yields its own property or `undefined`, every
other value yields `undefined`. -/
def field (v : JSVal) (key : String) : JSVal :=
  match v with
  | obj props => (props.lookup key).getD undefined
  | _ => undefined

end JSVal

/-- The assignment `o.key = v` on an object given by its property list: an
existing key keeps its place and takes the new value, a new key is appended. -/
def setProp : List (String × JSVal) → String → JSVal → List (String × JSVal)
  | [], key, v => [(key, v)]
  | (k, w) :: rest, key, v =>
    if k == key then (k, v) :: rest else (k, w) :: setProp rest key v

/-! ## Requests, errors, collaborators -/

/-- What a handler can throw: an `HttpsError` with its code and message, or the
`TypeError` of destructuring a nullish `request.data`, which no handler
catches. -/
inductive Thrown where
  | httpsError (code : String) (message : String)
  | typeError
  deriving DecidableEq

/-- The field `request.auth` when it is present: the caller's uid and the
decoded token, an object whose properties are the caller's claims. -/
structure AuthData where
  uid : String
  token : List (String × JSVal)

/-- The read `auth.token.admin`: the claim when the token has one, `undefined`
otherwise. -/
def AuthData.admin (auth : AuthData) : JSVal :=
  (auth.token.lookup "admin").getD JSVal.undefined

/-- The request a callable handler receives: `request.auth` (absent for an
unauthenticated call) and `request.data`. -/
structure CallableRequest where
  auth : Option AuthData
  data : JSVal

/-- The part of the directory's `UserRecord` the program reads. -/
structure UserRecord where
  uid : String

/-- The identity directory `getAuth()`: each operation either returns or raises
an error value. -/
structure Directory where
  createCustomToken : JSVal → JSVal → Except JSVal String
  createUser : JSVal → Except JSVal UserRecord
  updateUser : JSVal → JSVal → Except JSVal Unit
  deleteUser : JSVal → Except JSVal Unit

/-- One call made to the directory, with its arguments. -/
inductive DirCall where
  | createCustomToken (uid : JSVal) (claims : JSVal)
  | createUser (properties : JSVal)
  | updateUser (uid : JSVal) (properties : JSVal)
  | deleteUser (uid : JSVal)

/-- The error a directory raises on a call, if it raises. -/
def Directory.raises (dir : Directory) : DirCall → Option JSVal
  | .createCustomToken uid claims =>
    match dir.createCustomToken uid claims with
    | .error e => some e
    | .ok _ => none
  | .createUser properties =>
    match dir.createUser properties with
    | .error e => some e
    | .ok _ => none
  | .updateUser uid properties =>
    match dir.updateUser uid properties with
    | .error e => some e
    | .ok _ => none
  | .deleteUser uid =>
    match dir.deleteUser uid with
    | .error e => some e
    | .ok _ => none

/-- One record written through `logger`: its severity and the arguments of the
call, in order. -/
structure LogRecord where
  severity : String
  args : List JSVal

/-- The call `logger.error(message, error, {structuredData: true})`. -/
def loggerError (message : String) (error : JSVal) : LogRecord :=
  ⟨"ERROR", [.str message, error, .obj [("structuredData", .bool true)]]⟩

/-- One run of a handler: the value returned or the error thrown, the directory
calls made and the log records written. -/
structure Outcome where
  result : Except Thrown JSVal
  calls : List DirCall
  logs : List LogRecord

/-! ## The program -/

/-- The guard `validateAuth(auth, requireAdmin = false)`. -/
def validateAuth (auth : Option AuthData) (requireAdmin : Bool := false) :
    Except Thrown Unit :=
  match auth with
  | none => .error (.httpsError "unauthenticated" "Request is not authenticated")
  | some a =>
    if requireAdmin && !a.admin.truthy then
      .error (.httpsError "permission-denied" "Only admins can perform this operation.")
    else
      .ok ()

/-- The handler `exports.makeAdmin`. It reads `request.data` only; it does not
call `validateAuth`. -/
def makeAdmin (request : CallableRequest) (dir : Directory) : Outcome :=
  if request.data.isNullish then ⟨.error .typeError, [], []⟩ else
  let uid := request.data.field "uid"
  if !uid.truthy then
    ⟨.error (.httpsError "invalid-argument" "Missing required parameter: uid."), [], []⟩
  else
    let claims := JSVal.obj [("admin", .bool true)]
    match dir.createCustomToken uid claims with
    | .ok token =>
      ⟨.ok (.obj [("token", .str token)]), [.createCustomToken uid claims], []⟩
    | .error error =>
      ⟨.error (.httpsError "internal" "Error making user an admin."),
        [.createCustomToken uid claims],
        [loggerError "Error making user an admin." error]⟩

/-- The handler `exports.authenticateCourseRepresentative`. -/
def authenticateCourseRepresentative (request : CallableRequest) (dir : Directory) :
    Outcome :=
  match validateAuth request.auth true with
  | .error e => ⟨.error e, [], []⟩
  | .ok _ =>
    if request.data.isNullish then ⟨.error .typeError, [], []⟩ else
    let email := request.data.field "email"
    let displayName := request.data.field "displayName"
    if !email.truthy || !displayName.truthy then
      ⟨.error (.httpsError "invalid-argument"
        "Missing required parameters: email, password or displayName."), [], []⟩
    else
      let properties := JSVal.obj
        [("email", email), ("password", .str "Central@123"), ("displayName", displayName)]
      match dir.createUser properties with
      | .ok user => ⟨.ok (.obj [("uid", .str user.uid)]), [.createUser properties], []⟩
      | .error error =>
        ⟨.error (.httpsError "internal" "Failed to create Firebase Auth user."),
          [.createUser properties],
          [loggerError "Error creating Firebase Auth user:" error]⟩

/-- The handler `exports.updateCourseRepresentativeAuth`. -/
def updateCourseRepresentativeAuth (request : CallableRequest) (dir : Directory) :
    Outcome :=
  match validateAuth request.auth true with
  | .error e => ⟨.error e, [], []⟩
  | .ok _ =>
    if request.data.isNullish then ⟨.error .typeError, [], []⟩ else
    let uid := request.data.field "uid"
    let displayName := request.data.field "displayName"
    let email := request.data.field "email"
    if !uid.truthy then
      ⟨.error (.httpsError "invalid-argument" "Missing required parameter: uid"), [], []⟩
    else
      let updates : List (String × JSVal) := []
      let updates := if displayName.truthy then setProp updates "displayName" displayName
        else updates
      let updates := if email.truthy then setProp updates "email" email else updates
      if (updates.map Prod.fst).length == 0 then
        ⟨.error (.httpsError "invalid-argument" "No valid fields to update."), [], []⟩
      else
        match dir.updateUser uid (.obj updates) with
        | .ok _ =>
          ⟨.ok (.obj [("message", .str "Firebase Auth user updated successfully.")]),
            [.updateUser uid (.obj updates)], []⟩
        | .error error =>
          ⟨.error (.httpsError "internal" "Failed to update Firebase Auth user."),
            [.updateUser uid (.obj updates)],
            [loggerError "Error updating Firebase Auth user:" error]⟩

/-- The handler `exports.deleteCourseRepresentativeAuth`. -/
def deleteCourseRepresentativeAuth (request : CallableRequest) (dir : Directory) :
    Outcome :=
  match validateAuth request.auth true with
  | .error e => ⟨.error e, [], []⟩
  | .ok _ =>
    if request.data.isNullish then ⟨.error .typeError, [], []⟩ else
    let uid := request.data.field "uid"
    if !uid.truthy then
      ⟨.error (.httpsError "invalid-argument" "Missing required parameter: uid"), [], []⟩
    else
      match dir.deleteUser uid with
      | .ok _ =>
        ⟨.ok (.obj [("message", .str "Firebase Auth user deleted successfully.")]),
          [.deleteUser uid], []⟩
      | .error error =>
        ⟨.error (.httpsError "internal" "Failed to delete Firebase Auth user."),
          [.deleteUser uid],
          [loggerError "Error deleting Firebase Auth user:" error]⟩

/-- The names the module exports. -/
inductive Export where
  | makeAdmin
  | authenticateCourseRepresentative
  | updateCourseRepresentativeAuth
  | deleteCourseRepresentativeAuth
  deriving DecidableEq

/-- The handler behind each exported name. -/
def Export.handler : Export → CallableRequest → Directory → Outcome
  | .makeAdmin => CourseRep.makeAdmin
  | .authenticateCourseRepresentative => CourseRep.authenticateCourseRepresentative
  | .updateCourseRepresentativeAuth => CourseRep.updateCourseRepresentativeAuth
  | .deleteCourseRepresentativeAuth => CourseRep.deleteCourseRepresentativeAuth

/-- The message of the `internal` error each handler throws from its `catch`
block. -/
def Export.internalMessage : Export → String
  | .makeAdmin => "Error making user an admin."
  | .authenticateCourseRepresentative => "Failed to create Firebase Auth user."
  | .updateCourseRepresentativeAuth => "Failed to update Firebase Auth user."
  | .deleteCourseRepresentativeAuth => "Failed to delete Firebase Auth user."


/-- Failing with an `HttpsError` of the given code, whatever its message. -/
def failsWith {α : Type} (r : Except Thrown α) (code : String) : Prop :=
  ∃ message, r = .error (.httpsError code message)

/-- A directory in which every operation succeeds. -/
def acceptingDirectory : Directory where
  createCustomToken := fun _ _ => .ok "signed-token"
  createUser := fun _ => .ok ⟨"new-uid"⟩
  updateUser := fun _ _ => .ok ()
  deleteUser := fun _ => .ok ()

/-- A directory in which every operation raises the given error. -/
def failingDirectory (error : JSVal) : Directory where
  createCustomToken := fun _ _ => .error error
  createUser := fun _ => .error error
  updateUser := fun _ _ => .error error
  deleteUser := fun _ => .error error

/-- A caller whose token carries `admin: true`. -/
def adminCaller : AuthData := ⟨"admin-1", [("admin", .bool true)]⟩

/-- The error the directory raises when it knows no account with the given id. -/
def userNotFound : JSVal :=
  .obj [("code", .str "auth/user-not-found"),
    ("message", .str "There is no user record corresponding to the provided identifier.")]

mutual
/-- Every string that occurs in a value: string leaves and property names. -/
def JSVal.strings : JSVal → List String
  | .str s => [s]
  | .arr items => stringsOfItems items
  | .obj props => stringsOfProps props
  | _ => []
/-- The strings that occur in a list of values. -/
def stringsOfItems : List JSVal → List String
  | [] => []
  | v :: vs => v.strings ++ stringsOfItems vs
/-- The strings that occur in a property list, names included. -/
def stringsOfProps : List (String × JSVal) → List String
  | [] => []
  | (k, v) :: ps => k :: (v.strings ++ stringsOfProps ps)
end

/-- Whether `u` occurs in `s` as a contiguous piece. -/
def occursIn (u s : String) : Bool :=
  s.data.tails.any (fun t => u.data.isPrefixOf t)

/-- Whether a log record contains the text `u`: some string among its arguments,
at any depth, has `u` as a piece. -/
def LogRecord.mentions (r : LogRecord) (u : String) : Bool :=
  (stringsOfItems r.args).any (occursIn u)

/-- Closed form of the object `updates` of `updateCourseRepresentativeAuth`:
each of the two optional fields is entered iff it is truthy, `displayName`
first. That the handler, which builds `updates` by two guarded assignments,
passes exactly this object to the directory is the content of `update_run`. -/
def truthyFields (displayName email : JSVal) : List (String × JSVal) :=
  (if displayName.truthy then [("displayName", displayName)] else []) ++
    (if email.truthy then [("email", email)] else [])

/-- The Validate phase of each handler, read off its source: the payload can be
destructured and every test that guards an `invalid-argument` throw passes. -/
def Export.passesValidation : Export → JSVal → Bool
  | .makeAdmin, data => !data.isNullish && (data.field "uid").truthy
  | .authenticateCourseRepresentative, data =>
    !data.isNullish && ((data.field "email").truthy && (data.field "displayName").truthy)
  | .updateCourseRepresentativeAuth, data =>
    !data.isNullish && ((data.field "uid").truthy &&
      ((data.field "displayName").truthy || (data.field "email").truthy))
  | .deleteCourseRepresentativeAuth, data => !data.isNullish && (data.field "uid").truthy

/-- The privilege each operation is specified to ask of the guard: admin for the
three account operations, none for `makeAdmin`. For the three account handlers
this is the argument at their call of `validateAuth`; `makeAdmin` has no such
call, and its entry follows the specification. -/
def Export.requireAdmin : Export → Bool
  | .makeAdmin => false
  | _ => true

/-- The Authorize phase as specified for each operation: the guard, run with the
operation's required privilege, lets the caller through. -/
def Export.passesAuthorization (h : Export) (auth : Option AuthData) : Bool :=
  match validateAuth auth h.requireAdmin with
  | .ok _ => true
  | .error _ => false

/-- The object without its properties named `key`. -/
def eraseKey (key : String) (props : List (String × JSVal)) : List (String × JSVal) :=
  props.filter (fun p => p.1 != key)

/-! ## Lemmas on the guard -/

/-- An absent caller is rejected as unauthenticated, whatever `requireAdmin` is. -/
theorem validateAuth_absent (requireAdmin : Bool) :
    validateAuth none requireAdmin =
      .error (.httpsError "unauthenticated" "Request is not authenticated") := rfl

/-- A present caller with a truthy admin claim passes the guard. -/
theorem validateAuth_truthy (a : AuthData) (requireAdmin : Bool)
    (h : a.admin.truthy = true) : validateAuth (some a) requireAdmin = .ok () := by
  simp [validateAuth, h]

/-- A present caller with a falsy admin claim is denied when admin is required. -/
theorem validateAuth_falsy (a : AuthData) (h : a.admin.truthy = false) :
    validateAuth (some a) true =
      .error (.httpsError "permission-denied" "Only admins can perform this operation.") := by
  simp [validateAuth, h]

/-- A present caller passes the guard when admin is not required. -/
theorem validateAuth_not_required (a : AuthData) : validateAuth (some a) false = .ok () := by
  simp [validateAuth]

/-- C1 (counterexample): a present caller whose admin claim is the string "yes", which is not the
boolean `true`, passes the guard with `requireAdmin = true` instead of failing with
`permission-denied`. -/
theorem validateAuth_string_claim_passes :
    AuthData.admin ⟨"a1", [("admin", .str "yes")]⟩ ≠ .bool true ∧
    validateAuth (some ⟨"a1", [("admin", .str "yes")]⟩) true = .ok () := by
  refine ⟨?_, rfl⟩
  simp [AuthData.admin, List.lookup]

/-- C1 (amended): the decision table of `validateAuth`. It fails with `unauthenticated` iff the
caller is absent; it fails with `permission-denied` iff the caller is present, `requireAdmin` is
true and the caller's admin claim is falsy (absent, `null`, `false`, `0` or the empty string); it
succeeds iff the caller is present and either `requireAdmin` is false or the admin claim is
truthy. -/
theorem validateAuth_decision_table (auth : Option AuthData) (requireAdmin : Bool) :
    (failsWith (validateAuth auth requireAdmin) "unauthenticated" ↔ auth = none) ∧
    (failsWith (validateAuth auth requireAdmin) "permission-denied" ↔
      ∃ a, auth = some a ∧ requireAdmin = true ∧ a.admin.truthy = false) ∧
    (validateAuth auth requireAdmin = .ok () ↔
      ∃ a, auth = some a ∧ (requireAdmin = false ∨ a.admin.truthy = true)) := by
  cases auth with
  | none => simp [validateAuth, failsWith]
  | some a =>
    cases requireAdmin <;> cases h : a.admin.truthy <;> simp [validateAuth, failsWith, h]


/-! ## Lemmas on the handlers -/

/-- Reading a property of an object is a lookup in its property list. -/
theorem field_obj (props : List (String × JSVal)) (key : String) :
    (JSVal.obj props).field key = (props.lookup key).getD .undefined := rfl

/-- A non-empty string is truthy. -/
theorem truthy_str (s : String) (h : s ≠ "") : (JSVal.str s).truthy = true := by
  simp [JSVal.truthy, h]

/-- What `makeAdmin` does on a payload it can destructure, whoever calls. -/
theorem makeAdmin_run (auth : Option AuthData) (data : JSVal) (dir : Directory)
    (hd : data.isNullish = false) :
    makeAdmin ⟨auth, data⟩ dir =
      if (data.field "uid").truthy then
        match dir.createCustomToken (data.field "uid") (.obj [("admin", .bool true)]) with
        | .ok token =>
          ⟨.ok (.obj [("token", .str token)]),
            [.createCustomToken (data.field "uid") (.obj [("admin", .bool true)])], []⟩
        | .error error =>
          ⟨.error (.httpsError "internal" "Error making user an admin."),
            [.createCustomToken (data.field "uid") (.obj [("admin", .bool true)])],
            [loggerError "Error making user an admin." error]⟩
      else
        ⟨.error (.httpsError "invalid-argument" "Missing required parameter: uid."), [], []⟩ := by
  cases h : (data.field "uid").truthy <;> simp [makeAdmin, hd, h]

/-- C2: with an absent caller and any payload, each of the three admin-gated handlers fails with
`unauthenticated` and makes no directory call. -/
theorem absent_caller_unauthenticated (data : JSVal) (dir : Directory) :
    ((authenticateCourseRepresentative ⟨none, data⟩ dir).result =
        .error (.httpsError "unauthenticated" "Request is not authenticated") ∧
      (authenticateCourseRepresentative ⟨none, data⟩ dir).calls = []) ∧
    ((updateCourseRepresentativeAuth ⟨none, data⟩ dir).result =
        .error (.httpsError "unauthenticated" "Request is not authenticated") ∧
      (updateCourseRepresentativeAuth ⟨none, data⟩ dir).calls = []) ∧
    ((deleteCourseRepresentativeAuth ⟨none, data⟩ dir).result =
        .error (.httpsError "unauthenticated" "Request is not authenticated") ∧
      (deleteCourseRepresentativeAuth ⟨none, data⟩ dir).calls = []) :=
  ⟨⟨rfl, rfl⟩, ⟨rfl, rfl⟩, ⟨rfl, rfl⟩⟩

/-- C3: with a present caller whose admin claim is absent or `false`, and any payload, each of the
three admin-gated handlers fails with `permission-denied` and makes no directory call. -/
theorem non_admin_caller_denied (a : AuthData) (data : JSVal) (dir : Directory)
    (h : a.token.lookup "admin" = none ∨ a.token.lookup "admin" = some (.bool false)) :
    ((authenticateCourseRepresentative ⟨some a, data⟩ dir).result =
        .error (.httpsError "permission-denied" "Only admins can perform this operation.") ∧
      (authenticateCourseRepresentative ⟨some a, data⟩ dir).calls = []) ∧
    ((updateCourseRepresentativeAuth ⟨some a, data⟩ dir).result =
        .error (.httpsError "permission-denied" "Only admins can perform this operation.") ∧
      (updateCourseRepresentativeAuth ⟨some a, data⟩ dir).calls = []) ∧
    ((deleteCourseRepresentativeAuth ⟨some a, data⟩ dir).result =
        .error (.httpsError "permission-denied" "Only admins can perform this operation.") ∧
      (deleteCourseRepresentativeAuth ⟨some a, data⟩ dir).calls = []) := by
  have hf : a.admin.truthy = false := by
    rcases h with h | h <;> simp [AuthData.admin, h, JSVal.truthy]
  have hv := validateAuth_falsy a hf
  simp [authenticateCourseRepresentative, updateCourseRepresentativeAuth,
    deleteCourseRepresentativeAuth, hv]

/-- Witness of C3: a caller whose token carries no claim at all, with the empty payload. -/
theorem non_admin_caller_denied_witness :
    ((authenticateCourseRepresentative ⟨some ⟨"u9", []⟩, .obj []⟩ acceptingDirectory).result =
        .error (.httpsError "permission-denied" "Only admins can perform this operation.") ∧
      (authenticateCourseRepresentative ⟨some ⟨"u9", []⟩, .obj []⟩ acceptingDirectory).calls
        = []) ∧
    ((updateCourseRepresentativeAuth ⟨some ⟨"u9", []⟩, .obj []⟩ acceptingDirectory).result =
        .error (.httpsError "permission-denied" "Only admins can perform this operation.") ∧
      (updateCourseRepresentativeAuth ⟨some ⟨"u9", []⟩, .obj []⟩ acceptingDirectory).calls
        = []) ∧
    ((deleteCourseRepresentativeAuth ⟨some ⟨"u9", []⟩, .obj []⟩ acceptingDirectory).result =
        .error (.httpsError "permission-denied" "Only admins can perform this operation.") ∧
      (deleteCourseRepresentativeAuth ⟨some ⟨"u9", []⟩, .obj []⟩ acceptingDirectory).calls
        = []) :=
  non_admin_caller_denied ⟨"u9", []⟩ (.obj []) acceptingDirectory (Or.inl rfl)

/-- C4 (the code at the failing input): called with no caller at all and the payload
`{uid: "u1"}`, `makeAdmin` does not fail with `unauthenticated`; it asks the directory for a token
carrying `{admin: true}` and returns that token. -/
theorem makeAdmin_absent_caller_issues_token :
    makeAdmin ⟨none, .obj [("uid", .str "u1")]⟩ acceptingDirectory =
      ⟨.ok (.obj [("token", .str "signed-token")]),
        [.createCustomToken (.str "u1") (.obj [("admin", .bool true)])], []⟩ := rfl

/-- C5: for every present caller, whatever its claims, and every payload whose `uid` is a
non-empty string, if the directory issues the token `t` then `makeAdmin` makes exactly one
directory call, `createCustomToken(uid, {admin: true})`, and returns exactly `{token: t}`; the
outcome is the same for every other present caller. -/
theorem makeAdmin_any_present_caller (a : AuthData) (props : List (String × JSVal))
    (dir : Directory) (u t : String) (hu : u ≠ "")
    (hp : props.lookup "uid" = some (.str u))
    (ht : dir.createCustomToken (.str u) (.obj [("admin", .bool true)]) = .ok t) :
    makeAdmin ⟨some a, .obj props⟩ dir =
      ⟨.ok (.obj [("token", .str t)]),
        [.createCustomToken (.str u) (.obj [("admin", .bool true)])], []⟩ ∧
    ∀ b : AuthData, makeAdmin ⟨some b, .obj props⟩ dir = makeAdmin ⟨some a, .obj props⟩ dir := by
  have hf : (JSVal.obj props).field "uid" = .str u := by simp [field_obj, hp]
  refine ⟨?_, fun b => rfl⟩
  rw [makeAdmin_run (some a) (.obj props) dir rfl, hf, truthy_str u hu]
  simp [ht]

/-- Witness of C5: a caller without the admin claim asks for a token for `u2`. -/
theorem makeAdmin_any_present_caller_witness :
    makeAdmin ⟨some ⟨"u9", [("admin", .bool false)]⟩, .obj [("uid", .str "u2")]⟩
        acceptingDirectory =
      ⟨.ok (.obj [("token", .str "signed-token")]),
        [.createCustomToken (.str "u2") (.obj [("admin", .bool true)])], []⟩ ∧
    ∀ b : AuthData, makeAdmin ⟨some b, .obj [("uid", .str "u2")]⟩ acceptingDirectory =
      makeAdmin ⟨some ⟨"u9", [("admin", .bool false)]⟩, .obj [("uid", .str "u2")]⟩
        acceptingDirectory :=
  makeAdmin_any_present_caller ⟨"u9", [("admin", .bool false)]⟩ [("uid", .str "u2")]
    acceptingDirectory "u2" "signed-token" (by decide) rfl rfl


/-- What `authenticateCourseRepresentative` does for a caller that passes the guard, on a payload
it can destructure. -/
theorem authenticate_run (a : AuthData) (data : JSVal) (dir : Directory)
    (ha : a.admin.truthy = true) (hd : data.isNullish = false) :
    authenticateCourseRepresentative ⟨some a, data⟩ dir =
      if (data.field "email").truthy && (data.field "displayName").truthy then
        match dir.createUser (.obj [("email", data.field "email"),
            ("password", .str "Central@123"), ("displayName", data.field "displayName")]) with
        | .ok user =>
          ⟨.ok (.obj [("uid", .str user.uid)]),
            [.createUser (.obj [("email", data.field "email"),
              ("password", .str "Central@123"), ("displayName", data.field "displayName")])], []⟩
        | .error error =>
          ⟨.error (.httpsError "internal" "Failed to create Firebase Auth user."),
            [.createUser (.obj [("email", data.field "email"),
              ("password", .str "Central@123"), ("displayName", data.field "displayName")])],
            [loggerError "Error creating Firebase Auth user:" error]⟩
      else
        ⟨.error (.httpsError "invalid-argument"
          "Missing required parameters: email, password or displayName."), [], []⟩ := by
  have hv := validateAuth_truthy a true ha
  cases he : (data.field "email").truthy <;> cases hn : (data.field "displayName").truthy <;>
    simp [authenticateCourseRepresentative, hv, hd, he, hn]

/-- What `updateCourseRepresentativeAuth` does for a caller that passes the guard, on a payload it
can destructure. -/
theorem update_run (a : AuthData) (data : JSVal) (dir : Directory)
    (ha : a.admin.truthy = true) (hd : data.isNullish = false) :
    updateCourseRepresentativeAuth ⟨some a, data⟩ dir =
      if (data.field "uid").truthy then
        if (data.field "displayName").truthy || (data.field "email").truthy then
          match dir.updateUser (data.field "uid")
              (.obj (truthyFields (data.field "displayName") (data.field "email"))) with
          | .ok _ =>
            ⟨.ok (.obj [("message", .str "Firebase Auth user updated successfully.")]),
              [.updateUser (data.field "uid")
                (.obj (truthyFields (data.field "displayName") (data.field "email")))], []⟩
          | .error error =>
            ⟨.error (.httpsError "internal" "Failed to update Firebase Auth user."),
              [.updateUser (data.field "uid")
                (.obj (truthyFields (data.field "displayName") (data.field "email")))],
              [loggerError "Error updating Firebase Auth user:" error]⟩
        else
          ⟨.error (.httpsError "invalid-argument" "No valid fields to update."), [], []⟩
      else
        ⟨.error (.httpsError "invalid-argument" "Missing required parameter: uid"), [], []⟩ := by
  have hv := validateAuth_truthy a true ha
  cases hu : (data.field "uid").truthy <;> cases hn : (data.field "displayName").truthy <;>
    cases he : (data.field "email").truthy <;>
    simp [updateCourseRepresentativeAuth, hv, hd, hu, hn, he, truthyFields, setProp]

/-- What `deleteCourseRepresentativeAuth` does for a caller that passes the guard, on a payload it
can destructure. -/
theorem delete_run (a : AuthData) (data : JSVal) (dir : Directory)
    (ha : a.admin.truthy = true) (hd : data.isNullish = false) :
    deleteCourseRepresentativeAuth ⟨some a, data⟩ dir =
      if (data.field "uid").truthy then
        match dir.deleteUser (data.field "uid") with
        | .ok _ =>
          ⟨.ok (.obj [("message", .str "Firebase Auth user deleted successfully.")]),
            [.deleteUser (data.field "uid")], []⟩
        | .error error =>
          ⟨.error (.httpsError "internal" "Failed to delete Firebase Auth user."),
            [.deleteUser (data.field "uid")],
            [loggerError "Error deleting Firebase Auth user:" error]⟩
      else
        ⟨.error (.httpsError "invalid-argument" "Missing required parameter: uid"), [], []⟩ := by
  have hv := validateAuth_truthy a true ha
  cases hu : (data.field "uid").truthy <;>
    simp [deleteCourseRepresentativeAuth, hv, hd, hu]

/-- The claim `admin: true` is truthy. -/
theorem admin_truthy (a : AuthData) (ha : a.admin = .bool true) : a.admin.truthy = true := by
  rw [ha]; rfl

/-- A handler that made a directory call on which the directory raised ends in the `internal`
error with its own fixed message. -/
theorem internal_of_raise (h : Export) (request : CallableRequest) (dir : Directory)
    (hr : ∃ c ∈ (h.handler request dir).calls, (dir.raises c).isSome = true) :
    (h.handler request dir).result = .error (.httpsError "internal" h.internalMessage) := by
  obtain ⟨auth, data⟩ := request
  obtain ⟨c, hc, he⟩ := hr
  cases h <;>
    simp only [Export.handler, makeAdmin, authenticateCourseRepresentative,
      updateCourseRepresentativeAuth, deleteCourseRepresentativeAuth] at hc ⊢ <;>
    (repeat' split at hc) <;>
    simp_all [Directory.raises, Export.internalMessage]

/-- C6: for each of the four handlers, any caller and any payload, if the directory call is made
and the directory raises, the handler ends in the `internal` error whose message is the handler's
own fixed text; so two directories that raise (with whatever errors) on the same request give the
caller the same result. -/
theorem directory_failure_is_internal (h : Export) (request : CallableRequest)
    (d1 d2 : Directory)
    (h1 : ∃ c ∈ (h.handler request d1).calls, (d1.raises c).isSome = true)
    (h2 : ∃ c ∈ (h.handler request d2).calls, (d2.raises c).isSome = true) :
    (h.handler request d1).result = .error (.httpsError "internal" h.internalMessage) ∧
    (h.handler request d2).result = (h.handler request d1).result := by
  rw [internal_of_raise h request d1 h1, internal_of_raise h request d2 h2]
  exact ⟨rfl, rfl⟩

/-- Witness of C6: an admin deletes `u1` against a directory that raises "user not found" and
against one that raises the string "quota exceeded". -/
theorem directory_failure_is_internal_witness :
    (Export.deleteCourseRepresentativeAuth.handler
        ⟨some adminCaller, .obj [("uid", .str "u1")]⟩ (failingDirectory userNotFound)).result =
      .error (.httpsError "internal" "Failed to delete Firebase Auth user.") ∧
    (Export.deleteCourseRepresentativeAuth.handler
        ⟨some adminCaller, .obj [("uid", .str "u1")]⟩
        (failingDirectory (.str "quota exceeded"))).result =
      (Export.deleteCourseRepresentativeAuth.handler
        ⟨some adminCaller, .obj [("uid", .str "u1")]⟩ (failingDirectory userNotFound)).result :=
  directory_failure_is_internal .deleteCourseRepresentativeAuth
    ⟨some adminCaller, .obj [("uid", .str "u1")]⟩
    (failingDirectory userNotFound) (failingDirectory (.str "quota exceeded"))
    ⟨.deleteUser (.str "u1"), List.mem_singleton.mpr rfl, rfl⟩
    ⟨.deleteUser (.str "u1"), List.mem_singleton.mpr rfl, rfl⟩

/-- C7 (counterexample): an admin sends `{uid: "u1", displayName: "", email: "rep@school.edu"}`.
The payload supplies `displayName`, yet the mapping passed to the directory update holds `email`
only. -/
theorem update_drops_empty_displayName :
    List.lookup "displayName"
        [("uid", JSVal.str "u1"), ("displayName", .str ""), ("email", .str "rep@school.edu")] =
      some (.str "") ∧
    updateCourseRepresentativeAuth
        ⟨some adminCaller,
          .obj [("uid", .str "u1"), ("displayName", .str ""), ("email", .str "rep@school.edu")]⟩
        acceptingDirectory =
      ⟨.ok (.obj [("message", .str "Firebase Auth user updated successfully.")]),
        [.updateUser (.str "u1") (.obj [("email", .str "rep@school.edu")])], []⟩ :=
  ⟨rfl, rfl⟩

/-- C7 (amended): for every admin caller and every payload whose `uid` is truthy and in which at
least one of `displayName`, `email` is truthy, `updateCourseRepresentativeAuth` makes exactly one
directory call, `updateUser(uid, updates)`, where `updates` holds `displayName` (with its value)
iff `displayName` is truthy, `email` (with its value) iff `email` is truthy, and no other key; if
the directory succeeds the handler returns `{message}`. -/
theorem update_forwards_truthy_fields (a : AuthData) (props : List (String × JSVal))
    (dir : Directory) (uid displayName email : JSVal)
    (ha : a.admin = .bool true)
    (huid : (JSVal.obj props).field "uid" = uid)
    (hname : (JSVal.obj props).field "displayName" = displayName)
    (hemail : (JSVal.obj props).field "email" = email)
    (hu : uid.truthy = true)
    (hf : displayName.truthy = true ∨ email.truthy = true) :
    (updateCourseRepresentativeAuth ⟨some a, .obj props⟩ dir).calls =
      [.updateUser uid (.obj (truthyFields displayName email))] ∧
    (∀ k v, (k, v) ∈ truthyFields displayName email ↔
      (k = "displayName" ∧ v = displayName ∧ displayName.truthy = true) ∨
      (k = "email" ∧ v = email ∧ email.truthy = true)) ∧
    (dir.updateUser uid (.obj (truthyFields displayName email)) = .ok () →
      (updateCourseRepresentativeAuth ⟨some a, .obj props⟩ dir).result =
        .ok (.obj [("message", .str "Firebase Auth user updated successfully.")])) := by
  have hor : (displayName.truthy || email.truthy) = true := by
    rcases hf with h | h <;> simp [h]
  rw [update_run a (.obj props) dir (admin_truthy a ha) rfl, huid, hname, hemail, hu]
  simp only [hor, if_true]
  refine ⟨?_, ?_, ?_⟩
  · cases dir.updateUser uid (.obj (truthyFields displayName email)) <;> rfl
  · intro k v
    cases hn : displayName.truthy <;> cases he : email.truthy <;>
      simp [truthyFields, hn, he]
  · intro hok
    rw [hok]

/-- Witness of C7 (amended): an admin renames `u1`. -/
theorem update_forwards_truthy_fields_witness :
    (updateCourseRepresentativeAuth
        ⟨some adminCaller, .obj [("uid", .str "u1"), ("displayName", .str "New Name")]⟩
        acceptingDirectory).calls =
      [.updateUser (.str "u1") (.obj (truthyFields (.str "New Name") .undefined))] ∧
    (∀ k v, (k, v) ∈ truthyFields (.str "New Name") .undefined ↔
      (k = "displayName" ∧ v = .str "New Name" ∧ (JSVal.str "New Name").truthy = true) ∨
      (k = "email" ∧ v = .undefined ∧ JSVal.undefined.truthy = true)) ∧
    (acceptingDirectory.updateUser (.str "u1")
        (.obj (truthyFields (.str "New Name") .undefined)) = .ok () →
      (updateCourseRepresentativeAuth
        ⟨some adminCaller, .obj [("uid", .str "u1"), ("displayName", .str "New Name")]⟩
        acceptingDirectory).result =
        .ok (.obj [("message", .str "Firebase Auth user updated successfully.")])) :=
  update_forwards_truthy_fields adminCaller
    [("uid", .str "u1"), ("displayName", .str "New Name")] acceptingDirectory
    (.str "u1") (.str "New Name") .undefined rfl rfl rfl rfl rfl (Or.inl rfl)

/-- C8: for every admin caller and every payload from which `email` or `displayName` is missing,
`authenticateCourseRepresentative` fails with `invalid-argument` and makes no directory call. -/
theorem create_missing_field_rejected (a : AuthData) (props : List (String × JSVal))
    (dir : Directory) (ha : a.admin = .bool true)
    (hm : props.lookup "email" = none ∨ props.lookup "displayName" = none) :
    (authenticateCourseRepresentative ⟨some a, .obj props⟩ dir).result =
      .error (.httpsError "invalid-argument"
        "Missing required parameters: email, password or displayName.") ∧
    (authenticateCourseRepresentative ⟨some a, .obj props⟩ dir).calls = [] := by
  have hor : (((JSVal.obj props).field "email").truthy &&
      ((JSVal.obj props).field "displayName").truthy) = false := by
    rcases hm with h | h <;> simp [field_obj, h, JSVal.truthy]
  rw [authenticate_run a (.obj props) dir (admin_truthy a ha) rfl, hor]
  exact ⟨rfl, rfl⟩

/-- Witness of C8: an admin sends the empty payload. -/
theorem create_missing_field_rejected_witness :
    (authenticateCourseRepresentative ⟨some adminCaller, .obj []⟩ acceptingDirectory).result =
      .error (.httpsError "invalid-argument"
        "Missing required parameters: email, password or displayName.") ∧
    (authenticateCourseRepresentative ⟨some adminCaller, .obj []⟩ acceptingDirectory).calls
      = [] :=
  create_missing_field_rejected adminCaller [] acceptingDirectory rfl (Or.inl rfl)

/-- C9 (counterexample): an admin sends `{uid: ""}`. The payload has a `uid` and neither
`displayName` nor `email`, yet the failure carries the message "Missing required parameter: uid",
not "No valid fields to update.". -/
theorem update_empty_uid_reported_missing :
    List.lookup "uid" [("uid", JSVal.str "")] = some (.str "") ∧
    List.lookup "displayName" [("uid", JSVal.str "")] = none ∧
    List.lookup "email" [("uid", JSVal.str "")] = none ∧
    (updateCourseRepresentativeAuth ⟨some adminCaller, .obj [("uid", .str "")]⟩
        acceptingDirectory).result =
      .error (.httpsError "invalid-argument" "Missing required parameter: uid") ∧
    (updateCourseRepresentativeAuth ⟨some adminCaller, .obj [("uid", .str "")]⟩
        acceptingDirectory).result ≠
      .error (.httpsError "invalid-argument" "No valid fields to update.") := by
  refine ⟨rfl, rfl, rfl, rfl, ?_⟩
  intro h
  have h2 : (Except.error (Thrown.httpsError "invalid-argument"
      "Missing required parameter: uid") : Except Thrown JSVal) =
      .error (.httpsError "invalid-argument" "No valid fields to update.") := h
  simp at h2

/-- C9 (amended): for every admin caller and every payload whose `uid` is truthy and that has
neither `displayName` nor `email`, `updateCourseRepresentativeAuth` fails with `invalid-argument`
and the message "No valid fields to update.", and makes no directory call. -/
theorem update_without_fields_rejected (a : AuthData) (props : List (String × JSVal))
    (dir : Directory) (ha : a.admin = .bool true)
    (hu : ((JSVal.obj props).field "uid").truthy = true)
    (hname : props.lookup "displayName" = none) (hemail : props.lookup "email" = none) :
    (updateCourseRepresentativeAuth ⟨some a, .obj props⟩ dir).result =
      .error (.httpsError "invalid-argument" "No valid fields to update.") ∧
    (updateCourseRepresentativeAuth ⟨some a, .obj props⟩ dir).calls = [] := by
  have hor : (((JSVal.obj props).field "displayName").truthy ||
      ((JSVal.obj props).field "email").truthy) = false := by
    simp [field_obj, hname, hemail, JSVal.truthy]
  rw [update_run a (.obj props) dir (admin_truthy a ha) rfl, hu, hor]
  exact ⟨rfl, rfl⟩

/-- Witness of C9 (amended): an admin sends `{uid: "u1"}`. -/
theorem update_without_fields_rejected_witness :
    (updateCourseRepresentativeAuth ⟨some adminCaller, .obj [("uid", .str "u1")]⟩
        acceptingDirectory).result =
      .error (.httpsError "invalid-argument" "No valid fields to update.") ∧
    (updateCourseRepresentativeAuth ⟨some adminCaller, .obj [("uid", .str "u1")]⟩
        acceptingDirectory).calls = [] :=
  update_without_fields_rejected adminCaller [("uid", .str "u1")] acceptingDirectory
    rfl rfl rfl rfl

/-- C10 (counterexample): an admin deletes `u1` and the directory raises "user not found". One
record is logged, and the text `u1` occurs nowhere in it. -/
theorem delete_failure_log_lacks_target :
    (deleteCourseRepresentativeAuth ⟨some adminCaller, .obj [("uid", .str "u1")]⟩
        (failingDirectory userNotFound)).logs =
      [loggerError "Error deleting Firebase Auth user:" userNotFound] ∧
    (loggerError "Error deleting Firebase Auth user:" userNotFound).mentions "u1" = false :=
  ⟨rfl, by decide⟩

/-- C10 (amended): for every admin caller, every non-empty target id `u` and every directory
error, when the directory delete raises, `deleteCourseRepresentativeAuth` returns the `internal`
error with its fixed message, makes that one directory call, and writes exactly one log record:
the `logger.error` call with the fixed text "Error deleting Firebase Auth user:", the directory
error and `{structuredData: true}`. The record is built from the error alone, not from `u`. -/
theorem delete_failure_logged_once (a : AuthData) (props : List (String × JSVal))
    (dir : Directory) (u : String) (error : JSVal)
    (ha : a.admin = .bool true) (hu : u ≠ "")
    (hp : props.lookup "uid" = some (.str u))
    (he : dir.deleteUser (.str u) = .error error) :
    deleteCourseRepresentativeAuth ⟨some a, .obj props⟩ dir =
      ⟨.error (.httpsError "internal" "Failed to delete Firebase Auth user."),
        [.deleteUser (.str u)],
        [⟨"ERROR", [.str "Error deleting Firebase Auth user:", error,
          .obj [("structuredData", .bool true)]]⟩]⟩ := by
  have hf : (JSVal.obj props).field "uid" = .str u := by simp [field_obj, hp]
  rw [delete_run a (.obj props) dir (admin_truthy a ha) rfl, hf, truthy_str u hu]
  simp [he, loggerError]

/-- Witness of C10 (amended): an admin deletes `u1` and the directory raises "user not found". -/
theorem delete_failure_logged_once_witness :
    deleteCourseRepresentativeAuth ⟨some adminCaller, .obj [("uid", .str "u1")]⟩
        (failingDirectory userNotFound) =
      ⟨.error (.httpsError "internal" "Failed to delete Firebase Auth user."),
        [.deleteUser (.str "u1")],
        [⟨"ERROR", [.str "Error deleting Firebase Auth user:", userNotFound,
          .obj [("structuredData", .bool true)]]⟩]⟩ :=
  delete_failure_logged_once adminCaller [("uid", .str "u1")] (failingDirectory userNotFound)
    "u1" userNotFound rfl (by decide) rfl rfl

/-! ## Call counts and log records -/

/-- No handler makes more than one directory call. -/
theorem calls_length_le_one (h : Export) (request : CallableRequest) (dir : Directory) :
    (h.handler request dir).calls.length ≤ 1 := by
  obtain ⟨auth, data⟩ := request
  cases h <;>
    simp only [Export.handler, makeAdmin, authenticateCourseRepresentative,
      updateCourseRepresentativeAuth, deleteCourseRepresentativeAuth] <;>
    (repeat' split) <;> simp

/-- The guard run with `requireAdmin = true` succeeds exactly when the account operations'
Authorize phase lets the caller through. -/
theorem validateAuth_ok_iff (auth : Option AuthData) (u : Unit) :
    validateAuth auth true = .ok u ↔
      Export.deleteCourseRepresentativeAuth.passesAuthorization auth = true := by
  cases hv : validateAuth auth true <;> simp [Export.passesAuthorization, Export.requireAdmin, hv]

/-- `makeAdmin` makes its directory call exactly when the payload passes validation, whoever the
caller is and whether or not there is one. -/
theorem makeAdmin_calls_iff (request : CallableRequest) (dir : Directory) :
    (makeAdmin request dir).calls.length = 1 ↔
      Export.makeAdmin.passesValidation request.data = true := by
  obtain ⟨auth, data⟩ := request
  cases hd : data.isNullish <;> cases hu : (data.field "uid").truthy <;>
    simp [makeAdmin, Export.passesValidation, hd, hu]
  split <;> simp

/-- Each of the three account handlers makes its directory call exactly when the caller passes the
guard with `requireAdmin = true` and the payload passes validation. -/
theorem account_calls_iff (h : Export) (request : CallableRequest) (dir : Directory)
    (hne : h ≠ .makeAdmin) :
    (h.handler request dir).calls.length = 1 ↔
      (h.passesAuthorization request.auth = true ∧ h.passesValidation request.data = true) := by
  obtain ⟨auth, data⟩ := request
  cases h
  · exact absurd rfl hne
  all_goals
    cases hv : validateAuth auth true <;> cases hd : data.isNullish <;>
      cases hu : (data.field "uid").truthy <;> cases hn : (data.field "displayName").truthy <;>
      cases he : (data.field "email").truthy <;>
      simp [Export.handler, authenticateCourseRepresentative, updateCourseRepresentativeAuth,
        deleteCourseRepresentativeAuth, Export.passesAuthorization, Export.requireAdmin,
        Export.passesValidation, hv, hd, hu, hn, he, setProp] <;>
      split <;> simp

/-- C11 (the code at the failing input): called with no caller at all and the payload
`{uid: "u1"}`, `makeAdmin` does not pass authorization, since the guard rejects an absent caller
whatever privilege is required, and yet makes one directory call. -/
theorem makeAdmin_calls_directory_unauthorized :
    Export.makeAdmin.passesAuthorization none = false ∧
    Export.makeAdmin.passesValidation (.obj [("uid", .str "u1")]) = true ∧
    (Export.makeAdmin.handler ⟨none, .obj [("uid", .str "u1")]⟩ acceptingDirectory).calls =
      [.createCustomToken (.str "u1") (.obj [("admin", .bool true)])] :=
  ⟨rfl, rfl, rfl⟩

/-- C13: for each of the four handlers and every request, a log record is written iff the
directory call was made and the directory raised, and every record written is an error record; an
invocation that ends in `unauthenticated`, `permission-denied` or `invalid-argument`, or that
returns a value, writes no record. -/
theorem logs_iff_directory_raised (h : Export) (request : CallableRequest) (dir : Directory) :
    ((h.handler request dir).logs ≠ [] ↔
      ∃ c ∈ (h.handler request dir).calls, (dir.raises c).isSome = true) ∧
    (∀ r ∈ (h.handler request dir).logs, r.severity = "ERROR") ∧
    ((failsWith (h.handler request dir).result "unauthenticated" ∨
        failsWith (h.handler request dir).result "permission-denied" ∨
        failsWith (h.handler request dir).result "invalid-argument" ∨
        (∃ v, (h.handler request dir).result = .ok v)) →
      (h.handler request dir).logs = []) := by
  obtain ⟨auth, data⟩ := request
  cases h <;>
    simp only [Export.handler, makeAdmin, authenticateCourseRepresentative,
      updateCourseRepresentativeAuth, deleteCourseRepresentativeAuth] <;>
    (repeat' split) <;>
    simp_all [Directory.raises, failsWith, loggerError]

/-! ## Creating an account -/

/-- C12 (counterexample): an admin sends `{email: "rep@school.edu", displayName: ""}`. Both
fields are in the payload, yet the handler fails with `invalid-argument` and the directory is not
called. -/
theorem create_rejects_empty_displayName :
    List.lookup "email" [("email", JSVal.str "rep@school.edu"), ("displayName", .str "")] =
      some (.str "rep@school.edu") ∧
    List.lookup "displayName" [("email", JSVal.str "rep@school.edu"), ("displayName", .str "")] =
      some (.str "") ∧
    authenticateCourseRepresentative
        ⟨some adminCaller, .obj [("email", .str "rep@school.edu"), ("displayName", .str "")]⟩
        acceptingDirectory =
      ⟨.error (.httpsError "invalid-argument"
        "Missing required parameters: email, password or displayName."), [], []⟩ :=
  ⟨rfl, rfl, rfl⟩

/-- C12 (amended): for every admin caller and every payload whose `email` and `displayName` are
both truthy, `authenticateCourseRepresentative` makes exactly one directory call,
`createUser({email, password: "Central@123", displayName})` with the payload's two values; any
other payload with the same two values leads to the same call, whatever else it holds; and if the
directory returns an account with id `n` the handler returns exactly `{uid: n}`. -/
theorem create_calls_with_fixed_password (a : AuthData) (props : List (String × JSVal))
    (dir : Directory) (email displayName : JSVal)
    (ha : a.admin = .bool true)
    (hemail : (JSVal.obj props).field "email" = email)
    (hname : (JSVal.obj props).field "displayName" = displayName)
    (he : email.truthy = true) (hn : displayName.truthy = true) :
    (authenticateCourseRepresentative ⟨some a, .obj props⟩ dir).calls =
      [.createUser (.obj [("email", email), ("password", .str "Central@123"),
        ("displayName", displayName)])] ∧
    (∀ other : List (String × JSVal),
      (JSVal.obj other).field "email" = email →
      (JSVal.obj other).field "displayName" = displayName →
      (authenticateCourseRepresentative ⟨some a, .obj other⟩ dir).calls =
        (authenticateCourseRepresentative ⟨some a, .obj props⟩ dir).calls) ∧
    (∀ user : UserRecord,
      dir.createUser (.obj [("email", email), ("password", .str "Central@123"),
        ("displayName", displayName)]) = .ok user →
      (authenticateCourseRepresentative ⟨some a, .obj props⟩ dir).result =
        .ok (.obj [("uid", .str user.uid)])) := by
  have key : ∀ p : List (String × JSVal), (JSVal.obj p).field "email" = email →
      (JSVal.obj p).field "displayName" = displayName →
      authenticateCourseRepresentative ⟨some a, .obj p⟩ dir =
        match dir.createUser (.obj [("email", email), ("password", .str "Central@123"),
            ("displayName", displayName)]) with
        | .ok user =>
          ⟨.ok (.obj [("uid", .str user.uid)]),
            [.createUser (.obj [("email", email), ("password", .str "Central@123"),
              ("displayName", displayName)])], []⟩
        | .error error =>
          ⟨.error (.httpsError "internal" "Failed to create Firebase Auth user."),
            [.createUser (.obj [("email", email), ("password", .str "Central@123"),
              ("displayName", displayName)])],
            [loggerError "Error creating Firebase Auth user:" error]⟩ := by
    intro p h1 h2
    rw [authenticate_run a (.obj p) dir (admin_truthy a ha) rfl, h1, h2, he, hn]
    rfl
  have calls : ∀ p : List (String × JSVal), (JSVal.obj p).field "email" = email →
      (JSVal.obj p).field "displayName" = displayName →
      (authenticateCourseRepresentative ⟨some a, .obj p⟩ dir).calls =
        [.createUser (.obj [("email", email), ("password", .str "Central@123"),
          ("displayName", displayName)])] := by
    intro p h1 h2
    rw [key p h1 h2]
    cases dir.createUser (.obj [("email", email), ("password", .str "Central@123"),
      ("displayName", displayName)]) <;> rfl
  refine ⟨calls props hemail hname, ?_, ?_⟩
  · intro other h1 h2
    rw [calls other h1 h2, calls props hemail hname]
  · intro user hok
    rw [key props hemail hname, hok]

/-- Witness of C12 (amended): an admin creates an account with a payload that also carries a
password of its own; the directory is asked for the fixed password and the new id is returned. -/
theorem create_calls_with_fixed_password_witness :
    (authenticateCourseRepresentative
        ⟨some adminCaller, .obj [("email", .str "rep@school.edu"),
          ("displayName", .str "Class Rep"), ("password", .str "hunter2")]⟩
        acceptingDirectory).calls =
      [.createUser (.obj [("email", .str "rep@school.edu"), ("password", .str "Central@123"),
        ("displayName", .str "Class Rep")])] ∧
    (authenticateCourseRepresentative
        ⟨some adminCaller, .obj [("email", .str "rep@school.edu"),
          ("displayName", .str "Class Rep")]⟩
        acceptingDirectory).calls =
      (authenticateCourseRepresentative
        ⟨some adminCaller, .obj [("email", .str "rep@school.edu"),
          ("displayName", .str "Class Rep"), ("password", .str "hunter2")]⟩
        acceptingDirectory).calls ∧
    (authenticateCourseRepresentative
        ⟨some adminCaller, .obj [("email", .str "rep@school.edu"),
          ("displayName", .str "Class Rep"), ("password", .str "hunter2")]⟩
        acceptingDirectory).result =
      .ok (.obj [("uid", .str "new-uid")]) :=
  have h := create_calls_with_fixed_password adminCaller
    [("email", .str "rep@school.edu"), ("displayName", .str "Class Rep"),
      ("password", .str "hunter2")]
    acceptingDirectory (.str "rep@school.edu") (.str "Class Rep") rfl rfl rfl rfl rfl
  ⟨h.1, h.2.1 [("email", .str "rep@school.edu"), ("displayName", .str "Class Rep")] rfl rfl,
    h.2.2 ⟨"new-uid"⟩ rfl⟩

/-! ## Messages of the validation failures -/

/-- C14 (counterexample): an admin sends `{displayName: "Class Rep"}`, from which only `email` is
missing. The message of the failure names `displayName`, which is in the payload, and `password`,
which no handler reads from a payload. -/
theorem create_message_names_present_field :
    List.lookup "email" [("displayName", JSVal.str "Class Rep")] = none ∧
    List.lookup "displayName" [("displayName", JSVal.str "Class Rep")] =
      some (.str "Class Rep") ∧
    (authenticateCourseRepresentative
        ⟨some adminCaller, .obj [("displayName", .str "Class Rep")]⟩ acceptingDirectory).result =
      .error (.httpsError "invalid-argument"
        "Missing required parameters: email, password or displayName.") ∧
    occursIn "displayName" "Missing required parameters: email, password or displayName." = true ∧
    occursIn "password" "Missing required parameters: email, password or displayName." = true :=
  ⟨rfl, rfl, rfl, by decide, by decide⟩

/-- C14 (amended): a payload that lacks a required field fails with `invalid-argument` and a
message fixed per handler. For `authenticateCourseRepresentative` (admin caller) there is one
message, the same whichever of `email` and `displayName` is missing and whoever the admin and
whatever the directory, and it names both `email` and `displayName`. For a payload without `uid`,
`makeAdmin` (any present caller) fails with exactly "Missing required parameter: uid." and
`updateCourseRepresentativeAuth` and `deleteCourseRepresentativeAuth` (admin caller) with exactly
"Missing required parameter: uid"; both texts name `uid`. -/
theorem missing_field_message (a a2 b : AuthData) (props other idless : List (String × JSVal))
    (dir dir2 : Directory) (ha : a.admin = .bool true) (ha2 : a2.admin = .bool true)
    (hm : props.lookup "email" = none ∨ props.lookup "displayName" = none)
    (ho : other.lookup "email" = none ∨ other.lookup "displayName" = none)
    (hu : idless.lookup "uid" = none) :
    (∃ message,
      (authenticateCourseRepresentative ⟨some a, .obj props⟩ dir).result =
        .error (.httpsError "invalid-argument" message) ∧
      occursIn "email" message = true ∧ occursIn "displayName" message = true ∧
      (authenticateCourseRepresentative ⟨some a2, .obj other⟩ dir2).result =
        .error (.httpsError "invalid-argument" message)) ∧
    ((makeAdmin ⟨some b, .obj idless⟩ dir).result =
        .error (.httpsError "invalid-argument" "Missing required parameter: uid.") ∧
      occursIn "uid" "Missing required parameter: uid." = true) ∧
    ((updateCourseRepresentativeAuth ⟨some a, .obj idless⟩ dir).result =
        .error (.httpsError "invalid-argument" "Missing required parameter: uid") ∧
      (deleteCourseRepresentativeAuth ⟨some a, .obj idless⟩ dir).result =
        .error (.httpsError "invalid-argument" "Missing required parameter: uid") ∧
      occursIn "uid" "Missing required parameter: uid" = true) := by
  have hadm := admin_truthy a ha
  have create : ∀ (c : AuthData) (d : Directory) (p : List (String × JSVal)),
      c.admin = .bool true →
      (p.lookup "email" = none ∨ p.lookup "displayName" = none) →
      (authenticateCourseRepresentative ⟨some c, .obj p⟩ d).result =
        .error (.httpsError "invalid-argument"
          "Missing required parameters: email, password or displayName.") := by
    intro c d p hc hp
    have hor : (((JSVal.obj p).field "email").truthy &&
        ((JSVal.obj p).field "displayName").truthy) = false := by
      rcases hp with h | h <;> simp [field_obj, h, JSVal.truthy]
    rw [authenticate_run c (.obj p) d (admin_truthy c hc) rfl, hor]
    rfl
  have hf : ((JSVal.obj idless).field "uid").truthy = false := by
    simp [field_obj, hu, JSVal.truthy]
  refine ⟨⟨_, create a dir props ha hm, by decide, by decide, create a2 dir2 other ha2 ho⟩,
    ⟨?_, by decide⟩, ⟨?_, ?_, by decide⟩⟩
  · rw [makeAdmin_run (some b) (.obj idless) dir rfl, hf]; rfl
  · rw [update_run a (.obj idless) dir hadm rfl, hf]; rfl
  · rw [delete_run a (.obj idless) dir hadm rfl, hf]; rfl

/-- Witness of C14 (amended): one admin sends a payload without `email`, another sends one without
`displayName` to a directory that raises, and the empty payload goes to the three handlers that
take a `uid`. -/
theorem missing_field_message_witness :
    (∃ message,
      (authenticateCourseRepresentative
        ⟨some adminCaller, .obj [("displayName", .str "Class Rep")]⟩ acceptingDirectory).result =
        .error (.httpsError "invalid-argument" message) ∧
      occursIn "email" message = true ∧ occursIn "displayName" message = true ∧
      (authenticateCourseRepresentative
        ⟨some ⟨"admin-2", [("admin", .bool true)]⟩, .obj [("email", .str "rep@school.edu")]⟩
        (failingDirectory userNotFound)).result =
        .error (.httpsError "invalid-argument" message)) ∧
    ((makeAdmin ⟨some ⟨"u9", []⟩, .obj []⟩ acceptingDirectory).result =
        .error (.httpsError "invalid-argument" "Missing required parameter: uid.") ∧
      occursIn "uid" "Missing required parameter: uid." = true) ∧
    ((updateCourseRepresentativeAuth ⟨some adminCaller, .obj []⟩ acceptingDirectory).result =
        .error (.httpsError "invalid-argument" "Missing required parameter: uid") ∧
      (deleteCourseRepresentativeAuth ⟨some adminCaller, .obj []⟩ acceptingDirectory).result =
        .error (.httpsError "invalid-argument" "Missing required parameter: uid") ∧
      occursIn "uid" "Missing required parameter: uid" = true) :=
  missing_field_message adminCaller ⟨"admin-2", [("admin", .bool true)]⟩ ⟨"u9", []⟩
    [("displayName", .str "Class Rep")] [("email", .str "rep@school.edu")] []
    acceptingDirectory (failingDirectory userNotFound) rfl rfl (Or.inl rfl) (Or.inr rfl) rfl

/-! ## Falsy fields -/

/-- Reading a property list entry by entry. -/
theorem lookup_cons_ite (j k : String) (v : JSVal) (rest : List (String × JSVal)) :
    List.lookup j ((k, v) :: rest) = if j = k then some v else List.lookup j rest := by
  rw [List.lookup_cons]
  split <;> simp_all

/-- Reading a property after erasing a key: the erased key is gone, every other key reads as
before. -/
theorem lookup_eraseKey (key j : String) (props : List (String × JSVal)) :
    (eraseKey key props).lookup j = if j = key then none else props.lookup j := by
  induction props with
  | nil => simp [eraseKey]
  | cons p rest ih =>
    obtain ⟨k, v⟩ := p
    unfold eraseKey at ih ⊢
    rw [List.filter_cons, lookup_cons_ite]
    by_cases hk : k = key
    · subst hk
      simp only [bne_self_eq_false, Bool.false_eq_true, if_false, ih]
      by_cases hj : j = k <;> simp [hj]
    · have hb : (k != key) = true := by simpa using hk
      simp only [hb, if_true, lookup_cons_ite, ih]
      by_cases hj : j = key
      · have hjk : ¬ j = k := fun h => hk (h ▸ hj)
        simp [hj, hjk, hk, Ne.symm hk]
      · simp [hj]

/-- A handler looks at its payload only through the three fields it reads, and at a falsy field
only through its being falsy: two payloads whose fields agree, or are both falsy, give the same
outcome. -/
theorem handler_congr (h : Export) (auth : Option AuthData) (d1 d2 : JSVal) (dir : Directory)
    (hnull : d1.isNullish = d2.isNullish)
    (hk : ∀ k, d1.field k = d2.field k ∨
      ((d1.field k).truthy = false ∧ (d2.field k).truthy = false)) :
    h.handler ⟨auth, d1⟩ dir = h.handler ⟨auth, d2⟩ dir := by
  have fu := hk "uid"
  have fe := hk "email"
  have fn := hk "displayName"
  clear hk
  cases h <;>
    simp only [Export.handler, makeAdmin, authenticateCourseRepresentative,
      updateCourseRepresentativeAuth, deleteCourseRepresentativeAuth, hnull] <;>
    generalize d1.field "uid" = u1 at * <;> generalize d2.field "uid" = u2 at * <;>
    generalize d1.field "email" = e1 at * <;> generalize d2.field "email" = e2 at * <;>
    generalize d1.field "displayName" = n1 at * <;>
    generalize d2.field "displayName" = n2 at * <;>
    rcases fu with fu | ⟨fu1, fu2⟩ <;> rcases fe with fe | ⟨fe1, fe2⟩ <;>
    rcases fn with fn | ⟨fn1, fn2⟩ <;>
    (try subst fu) <;> (try subst fe) <;> (try subst fn) <;>
    (try rw [fu1]) <;> (try rw [fu2]) <;> (try rw [fe1]) <;> (try rw [fe2]) <;>
    (try rw [fn1]) <;> (try rw [fn2]) <;>
    (try simp)

/-- The object passed to the directory update never holds a falsy value. -/
theorem truthyFields_truthy (displayName email : JSVal) (k : String) (v : JSVal)
    (h : (k, v) ∈ truthyFields displayName email) : v.truthy = true := by
  cases hn : displayName.truthy <;> cases he : email.truthy <;>
    simp [truthyFields, hn, he] at h
  · obtain ⟨_, rfl⟩ := h; exact he
  · obtain ⟨_, rfl⟩ := h; exact hn
  · rcases h with ⟨_, rfl⟩ | ⟨_, rfl⟩
    · exact hn
    · exact he

/-- C15: a field is taken into account iff its value is truthy. For every admin caller: a field
supplied with a falsy value (the empty string, `null`, `0`, `false`) gives the same outcome, in
each handler, as the payload without that field; with a non-empty `u` and `e`,
`{uid: u, displayName: "", email: e}` sends exactly `{email: e}` to the directory update and
`{uid: u, displayName: "", email: ""}` fails with `invalid-argument` "No valid fields to
update."; each handler that takes a `uid` fails with `invalid-argument`, without a directory call,
when the `uid` is the empty string; and the object sent to the directory update never holds a
falsy value, so no field is ever set to the empty string. -/
theorem falsy_field_treated_as_absent (a : AuthData) (dir : Directory) (u e : String)
    (ha : a.admin = .bool true) (hu : u ≠ "") (he : e ≠ "") :
    ((JSVal.str "").truthy = false ∧ JSVal.null.truthy = false ∧
      (JSVal.num 0).truthy = false ∧ (JSVal.bool false).truthy = false) ∧
    (∀ (h : Export) (props : List (String × JSVal)) (key : String) (v : JSVal),
      props.lookup key = some v → v.truthy = false →
      h.handler ⟨some a, .obj props⟩ dir = h.handler ⟨some a, .obj (eraseKey key props)⟩ dir) ∧
    (updateCourseRepresentativeAuth
        ⟨some a, .obj [("uid", .str u), ("displayName", .str ""), ("email", .str e)]⟩ dir).calls =
      [.updateUser (.str u) (.obj [("email", .str e)])] ∧
    ((updateCourseRepresentativeAuth
        ⟨some a, .obj [("uid", .str u), ("displayName", .str ""), ("email", .str "")]⟩
        dir).result =
        .error (.httpsError "invalid-argument" "No valid fields to update.") ∧
      (updateCourseRepresentativeAuth
        ⟨some a, .obj [("uid", .str u), ("displayName", .str ""), ("email", .str "")]⟩
        dir).calls = []) ∧
    (∀ props : List (String × JSVal), props.lookup "uid" = some (.str "") →
      (failsWith (makeAdmin ⟨some a, .obj props⟩ dir).result "invalid-argument" ∧
        (makeAdmin ⟨some a, .obj props⟩ dir).calls = []) ∧
      (failsWith (updateCourseRepresentativeAuth ⟨some a, .obj props⟩ dir).result
          "invalid-argument" ∧
        (updateCourseRepresentativeAuth ⟨some a, .obj props⟩ dir).calls = []) ∧
      (failsWith (deleteCourseRepresentativeAuth ⟨some a, .obj props⟩ dir).result
          "invalid-argument" ∧
        (deleteCourseRepresentativeAuth ⟨some a, .obj props⟩ dir).calls = [])) ∧
    (∀ (data uid : JSVal) (updates : List (String × JSVal)),
      DirCall.updateUser uid (.obj updates) ∈
        (updateCourseRepresentativeAuth ⟨some a, data⟩ dir).calls →
      ∀ k v, (k, v) ∈ updates → v.truthy = true) := by
  have hadm := admin_truthy a ha
  have tu := truthy_str u hu
  have te := truthy_str e he
  have t0 : (JSVal.str "").truthy = false := rfl
  refine ⟨⟨rfl, rfl, rfl, rfl⟩, ?_, ?_, ?_, ?_, ?_⟩
  · intro h props key v hl hv
    refine handler_congr h (some a) (.obj props) (.obj (eraseKey key props)) dir rfl ?_
    intro k
    rw [field_obj, field_obj, lookup_eraseKey]
    by_cases hk : k = key
    · subst hk
      right
      rw [hl]
      exact ⟨hv, by simp [JSVal.truthy]⟩
    · left
      simp [hk]
  · rw [update_run a (.obj [("uid", .str u), ("displayName", .str ""), ("email", .str e)]) dir
      hadm rfl]
    have f1 : (JSVal.obj [("uid", .str u), ("displayName", .str ""), ("email", .str e)]).field
        "uid" = .str u := rfl
    have f2 : (JSVal.obj [("uid", .str u), ("displayName", .str ""), ("email", .str e)]).field
        "displayName" = .str "" := rfl
    have f3 : (JSVal.obj [("uid", .str u), ("displayName", .str ""), ("email", .str e)]).field
        "email" = .str e := rfl
    rw [f1, f2, f3]
    simp only [tu, te, t0, truthyFields, Bool.false_or, if_true, Bool.false_eq_true, if_false,
      List.nil_append]
    cases dir.updateUser (.str u) (.obj [("email", .str e)]) <;> rfl
  · rw [update_run a (.obj [("uid", .str u), ("displayName", .str ""), ("email", .str "")]) dir
      hadm rfl]
    have f1 : (JSVal.obj [("uid", .str u), ("displayName", .str ""), ("email", .str "")]).field
        "uid" = .str u := rfl
    have f2 : (JSVal.obj [("uid", .str u), ("displayName", .str ""), ("email", .str "")]).field
        "displayName" = .str "" := rfl
    have f3 : (JSVal.obj [("uid", .str u), ("displayName", .str ""), ("email", .str "")]).field
        "email" = .str "" := rfl
    rw [f1, f2, f3]
    simp only [tu, t0, Bool.or_self, if_true, Bool.false_eq_true, if_false]
    exact ⟨trivial, trivial⟩
  · intro props hp
    have hf : ((JSVal.obj props).field "uid").truthy = false := by
      simp [field_obj, hp, JSVal.truthy]
    rw [makeAdmin_run (some a) (.obj props) dir rfl, update_run a (.obj props) dir hadm rfl,
      delete_run a (.obj props) dir hadm rfl, hf]
    exact ⟨⟨⟨_, rfl⟩, rfl⟩, ⟨⟨_, rfl⟩, rfl⟩, ⟨⟨_, rfl⟩, rfl⟩⟩
  · intro data uid updates hmem k v hkv
    cases hd : data.isNullish
    · rw [update_run a data dir hadm hd] at hmem
      split at hmem
      · split at hmem
        · have hc : DirCall.updateUser uid (.obj updates) =
              .updateUser (data.field "uid")
                (.obj (truthyFields (data.field "displayName") (data.field "email"))) := by
            split at hmem <;> simpa using hmem
          injection hc with _ hobj
          injection hobj with hobj
          subst hobj
          exact truthyFields_truthy _ _ k v hkv
        · simp at hmem
      · simp at hmem
    · simp [updateCourseRepresentativeAuth, validateAuth_truthy a true hadm, hd] at hmem

/-- Witness of C15: an admin sends `{uid: "u1", displayName: "", email: "rep@school.edu"}` and
`{uid: "u1", displayName: "", email: ""}`. -/
theorem falsy_field_treated_as_absent_witness :
    (updateCourseRepresentativeAuth
        ⟨some adminCaller,
          .obj [("uid", .str "u1"), ("displayName", .str ""), ("email", .str "rep@school.edu")]⟩
        acceptingDirectory).calls =
      [.updateUser (.str "u1") (.obj [("email", .str "rep@school.edu")])] ∧
    (updateCourseRepresentativeAuth
        ⟨some adminCaller, .obj [("uid", .str "u1"), ("displayName", .str ""), ("email", .str "")]⟩
        acceptingDirectory).result =
      .error (.httpsError "invalid-argument" "No valid fields to update.") ∧
    deleteCourseRepresentativeAuth ⟨some adminCaller, .obj [("uid", .str "")]⟩
        acceptingDirectory =
      deleteCourseRepresentativeAuth ⟨some adminCaller, .obj []⟩ acceptingDirectory :=
  have h := falsy_field_treated_as_absent adminCaller acceptingDirectory "u1" "rep@school.edu"
    rfl (by decide) (by decide)
  ⟨h.2.2.1, h.2.2.2.1.1,
    h.2.1 .deleteCourseRepresentativeAuth [("uid", .str "")] "uid" (.str "") rfl rfl⟩

end CourseRep
